import Mathlib

/-!
Shallow embedding of the conversation session state machine of
`backend/conversationalAPI.py` (pre-consultation agent), together with the
severity-risk and recommendation logic of `TyphoidModelWrapper`.

Conventions of the embedding:
* Python `dict` objects (insertion ordered) are association lists
  `List (String × α)`; assignment `d[k] = v` is `dictSet` (update in place if
  the key exists, else append), lookup is `dictGet?`.
* `int(x)` on a string is `pyInt` (strip whitespace, optional sign, decimal
  digits; a `ValueError` is `none`).  Underscore digit grouping and non-ASCII
  digits, which CPython also accepts, are not modelled; no claim depends on
  them.
* Wall-clock timestamps on transcript entries are not modelled; a transcript
  entry is a `(role, content)` pair.
* The external pickled classifier is out of scope; `sendMessage` takes the
  text of the final diagnosis message as an oracle `predictMsg` of the
  collected data.
-/

namespace PreConsult

/-- A validated collected value: `int(answer)` for number questions, the
canonically cased option string for choice questions. -/
inductive Value where
  | num (n : Int)
  | str (s : String)
deriving Repr, DecidableEq

/-- The validation rule of a question: the two `'number'` questions carry a
closure `lambda x: lo <= int(x) <= hi`, embedded as the inclusive bounds;
`'choice'` questions carry their option list. -/
inductive QKind where
  | number (lo hi : Int)
  | choice (options : List String)
deriving Repr, DecidableEq

/-- One entry of `self.questions` in `ConversationSession.__init__`. -/
structure Question where
  field : String
  question : String
  kind : QKind
deriving Repr, DecidableEq

/-- Python dict assignment `d[k] = v` on an insertion-ordered dict. -/
def dictSet {α : Type} (d : List (String × α)) (k : String) (v : α) :
    List (String × α) :=
  match d with
  | [] => [(k, v)]
  | (k', v') :: rest =>
      if k' = k then (k, v) :: rest else (k', v') :: dictSet rest k v

/-- Python dict lookup `d.get(k)`. -/
def dictGet? {α : Type} (d : List (String × α)) (k : String) : Option α :=
  (d.find? (fun p => p.1 = k)).map (fun p => p.2)

/-- Python whitespace as stripped by `str.strip()` and `int()` (the ASCII
whitespace characters; exotic Unicode whitespace is not modelled). -/
def isPySpace (c : Char) : Bool :=
  c = ' ' ∨ c = '\t' ∨ c = '\n' ∨ c = '\x0d' ∨ c = '\x0b' ∨ c = '\x0c'

/-- Python `s.strip()`. -/
def pyStrip (s : String) : String :=
  String.mk (((s.data.dropWhile isPySpace).reverse.dropWhile isPySpace).reverse)

/-- ASCII lower-casing of one character, as `str.lower()` acts on ASCII. -/
def lowerChar (c : Char) : Char :=
  if 'A' ≤ c ∧ c ≤ 'Z' then Char.ofNat (c.toNat + 32) else c

/-- Python `s.lower()` (ASCII; all catalog options are ASCII). -/
def pyLower (s : String) : String :=
  String.mk (s.data.map lowerChar)

/-- Digits to the natural number they denote, most significant first. -/
def digitsToNat (cs : List Char) : Nat :=
  cs.foldl (fun acc c => acc * 10 + (c.toNat - 48)) 0

/-- Python `int(s)` on a string: strip whitespace, optional sign, at least
one decimal digit; `ValueError` is `none`. -/
def pyInt (s : String) : Option Int :=
  match (pyStrip s).data with
  | [] => none
  | c :: rest =>
      let signDigits : Int × List Char :=
        if c = '-' then (-1, rest)
        else if c = '+' then (1, rest) else (1, c :: rest)
      if signDigits.2 ≠ [] ∧ signDigits.2.all (fun d => d.isDigit) then
        some (signDigits.1 * (digitsToNat signDigits.2 : Int))
      else none

/-- The question catalog of `ConversationSession.__init__`, in insertion
order. -/
def questions : List Question :=
  [ { field := "Age", question := "What is your age?",
      kind := .number 1 120 },
    { field := "Gender", question := "What is your gender? (Male/Female)",
      kind := .choice ["Male", "Female"] },
    { field := "Location",
      question := "What type of area do you live in? (Urban/Rural/Endemic)",
      kind := .choice ["Urban", "Rural", "Endemic"] },
    { field := "Socioeconomic Status",
      question := "What is your socioeconomic status? (Low/Middle/High)",
      kind := .choice ["Low", "Middle", "High"] },
    { field := "Water Source Type",
      question := "What is your main source of drinking water? (Tap/Well/River/Untreated Supply)",
      kind := .choice ["Tap", "Well", "River", "Untreated Supply"] },
    { field := "Sanitation Facilities",
      question := "Do you have proper sanitation facilities? (Proper/Open Defecation)",
      kind := .choice ["Proper", "Open Defecation"] },
    { field := "Hand Hygiene",
      question := "Do you practice regular hand hygiene? (Yes/No)",
      kind := .choice ["Yes", "No"] },
    { field := "Consumption of Street Food",
      question := "Do you regularly consume street food? (Yes/No)",
      kind := .choice ["Yes", "No"] },
    { field := "Fever Duration (Days)",
      question := "For how many days have you had fever? (Enter 0 if no fever)",
      kind := .number 0 30 },
    { field := "Gastrointestinal Symptoms",
      question := "Do you have any stomach-related symptoms? (None/Diarrhea/Constipation/Abdominal Pain)",
      kind := .choice ["None", "Diarrhea", "Constipation", "Abdominal Pain"] },
    { field := "Neurological Symptoms",
      question := "Do you have any neurological symptoms? (None/Headache/Confusion/Delirium)",
      kind := .choice ["None", "Headache", "Confusion", "Delirium"] },
    { field := "Skin Manifestations",
      question := "Do you have any skin rashes or spots? (Yes/No)",
      kind := .choice ["Yes", "No"] },
    { field := "Complications",
      question := "Have you experienced any severe complications? (None/Meningitis/Sepsis/Intestinal Perforation)",
      kind := .choice ["None", "Meningitis", "Sepsis", "Intestinal Perforation"] },
    { field := "Typhoid Vaccination Status",
      question := "Have you received typhoid vaccination? (Received/Not Received)",
      kind := .choice ["Received", "Not Received"] },
    { field := "Previous History of Typhoid",
      question := "Have you had typhoid fever before? (Yes/No)",
      kind := .choice ["Yes", "No"] },
    { field := "Weather Condition",
      question := "What is the current weather condition? (Hot & Dry/Cold & Humid/Rainy & Wet/Moderate)",
      kind := .choice ["Hot & Dry", "Cold & Humid", "Rainy & Wet", "Moderate"] },
    { field := "Ongoing Infection in Society",
      question := "Are there any disease outbreaks in your area? (None/Dengue Outbreak/COVID-19 Surge/Seasonal Flu)",
      kind := .choice ["None", "Dengue Outbreak", "COVID-19 Surge", "Seasonal Flu"] } ]

/-- `self.field_names = list(self.questions.keys())`. -/
def fieldNames : List String := questions.map (fun q => q.field)

/-- State of one `ConversationSession` (the `created_at` timestamp is not
modelled). -/
structure ConversationSession where
  sessionId : String
  conversationHistory : List (String × String)
  collectedData : List (String × Value)
  currentQuestionIndex : Nat
  isComplete : Bool
deriving Repr, DecidableEq

/-- `ConversationSession.__init__`. -/
def ConversationSession.init (sessionId : String) : ConversationSession :=
  { sessionId := sessionId
    conversationHistory := []
    collectedData := []
    currentQuestionIndex := 0
    isComplete := false }

/-- `ConversationSession.add_message` (timestamp dropped). -/
def addMessage (s : ConversationSession) (role content : String) :
    ConversationSession :=
  { s with conversationHistory := s.conversationHistory ++ [(role, content)] }

/-- The case-insensitive option loop of `validate_and_store_answer`: the first
option whose lower-casing equals the lower-cased answer. -/
def matchOption (options : List String) (answer : String) : Option String :=
  options.find? (fun opt => pyLower answer = pyLower opt)

/-- `ConversationSession.validate_and_store_answer`: returns the boolean result
and the (possibly) updated session.  For a `'number'` question the code first
runs the range closure (whose `int(x)` may raise `ValueError`, caught as
`False`) and then stores `int(answer)`; for a `'choice'` question it stores the
first case-insensitively matching option. -/
def validateAndStoreAnswer (s : ConversationSession)
    (fieldName answer : String) : Bool × ConversationSession :=
  match questions.find? (fun q => q.field = fieldName) with
  | none => (false, s)
  | some q =>
      match q.kind with
      | .number lo hi =>
          match pyInt answer with
          | none => (false, s)
          | some v =>
              if lo ≤ v ∧ v ≤ hi then
                (true, { s with collectedData := dictSet s.collectedData fieldName (.num v) })
              else (false, s)
      | .choice options =>
          match matchOption options answer with
          | some opt =>
              (true, { s with collectedData := dictSet s.collectedData fieldName (.str opt) })
          | none => (false, s)

instance : Inhabited Question :=
  ⟨{ field := "", question := "", kind := .choice [] }⟩

/-- The `'type'` tag of a question dict entry. -/
def qtypeOf : QKind → String
  | .number _ _ => "number"
  | .choice _ => "choice"

/-- The `'options'` entry, `question_data.get('options', [])`. -/
def optionsOf : QKind → List String
  | .number _ _ => []
  | .choice options => options

/-- The dict returned by `ConversationSession.get_next_question`. -/
structure NextQuestion where
  field : String
  question : String
  qtype : String
  options : List String
  progress : String
deriving Repr, DecidableEq

/-- `ConversationSession.get_next_question`.  The code indexes
`self.questions[field_name]` with `field_name = self.field_names[index]`;
since the dict is insertion ordered with distinct keys this is the
`index`-th catalog entry. -/
def getNextQuestion (s : ConversationSession) : Option NextQuestion :=
  if fieldNames.length ≤ s.currentQuestionIndex then none
  else
    let q := questions.getD s.currentQuestionIndex default
    some { field := q.field
           question := q.question
           qtype := qtypeOf q.kind
           options := optionsOf q.kind
           progress := toString (s.currentQuestionIndex + 1) ++ "/" ++
             toString fieldNames.length }

/-- The invalid-answer re-prompt of `send_message`: the current question
again, plus the option list for `'choice'` questions. -/
def hintFor (i : Nat) : String :=
  let questionData := questions.getD i default
  "I didn\x27t quite understand that. " ++ questionData.question ++
    (if qtypeOf questionData.kind = "choice" then
      "\nPlease choose from: " ++
        String.intercalate ", " (optionsOf questionData.kind)
    else "")

/-- Outcome of one `POST /conversation/message` call on an existing session:
the `400 Conversation already complete` error, the invalid-answer re-prompt,
the acknowledgement of a stored answer, or the final diagnosis message. -/
inductive MsgOutcome where
  | alreadyComplete
  | rejected (agentMessage : String)
  | accepted (agentMessage : String)
  | finished (agentMessage : String)
deriving Repr, DecidableEq

/-- `send_message`, restricted to one existing session (the 404 lookup is a
store access kept outside this function).  `predictMsg` is the text built
from `model.predict` on the collected data, an external oracle. -/
def sendMessage (predictMsg : List (String × Value) → String)
    (session : ConversationSession) (rawMessage : String) :
    MsgOutcome × ConversationSession :=
  let userMessage := pyStrip rawMessage
  let s1 := addMessage session "user" userMessage
  if fieldNames.length ≤ s1.currentQuestionIndex then
    (.alreadyComplete, s1)
  else
    let currentField := fieldNames.getD s1.currentQuestionIndex ""
    let vres := validateAndStoreAnswer s1 currentField userMessage
    if vres.1 = false then
      let hintMessage := hintFor s1.currentQuestionIndex
      (.rejected hintMessage, addMessage vres.2 "agent" hintMessage)
    else
      let s2 := { vres.2 with
                  currentQuestionIndex := vres.2.currentQuestionIndex + 1 }
      if fieldNames.length ≤ s2.currentQuestionIndex then
        let s3 := { s2 with isComplete := true }
        let finalMessage := predictMsg s3.collectedData
        (.finished finalMessage, addMessage s3 "agent" finalMessage)
      else
        -- the cursor is still below the catalog length here, so
        -- get_next_question cannot return None
        let agentMessage :=
          "Got it. " ++ ((getNextQuestion s2).map (fun nq => nq.question)).getD ""
        (.accepted agentMessage, addMessage s2 "agent" agentMessage)

/-- The greeting of `start_conversation`. -/
def greeting : String :=
  "Hello! I\x27m your AI diagnostic assistant for typhoid fever screening. I\x27ll ask you some questions to assess your condition."

/-- `start_conversation`: `sessionId` stands for the freshly generated
`uuid4` string.  `active_sessions[session_id] = session` stores a reference,
and the two `add_message` calls mutate the stored object, so the store ends
up holding the session with both agent messages appended. -/
def startConversation (store : List (String × ConversationSession))
    (sessionId : String) :
    List (String × ConversationSession) × ConversationSession :=
  let session := ConversationSession.init sessionId
  let nextQuestion := getNextQuestion session
  let session := addMessage session "agent" greeting
  let session :=
    addMessage session "agent" ((nextQuestion.map (fun nq => nq.question)).getD "")
  (dictSet store sessionId session, session)

/-- Run a list of patient messages through `sendMessage`, keeping the final
session state. -/
def runMessages (predictMsg : List (String × Value) → String)
    (s : ConversationSession) : List String → ConversationSession
  | [] => s
  | m :: rest => runMessages predictMsg (sendMessage predictMsg s m).2 rest

/-- Does the outcome correspond to a successfully validated answer? -/
def isSuccess : MsgOutcome → Bool
  | .accepted _ => true
  | .finished _ => true
  | _ => false

/-- Number of successful answer submissions along a run. -/
def acceptedCount (predictMsg : List (String × Value) → String)
    (s : ConversationSession) : List String → Nat
  | [] => 0
  | m :: rest =>
      (if isSuccess (sendMessage predictMsg s m).1 then 1 else 0) +
        acceptedCount predictMsg (sendMessage predictMsg s m).2 rest

/-- Sessions reachable through the API: created by `start_conversation` and
mutated only by `send_message` calls (`get_conversation` is read-only and
deletion removes the session from the store). -/
inductive Reachable (predictMsg : List (String × Value) → String) :
    ConversationSession → Prop
  | start (store : List (String × ConversationSession)) (sessionId : String) :
      Reachable predictMsg (startConversation store sessionId).2
  | step (s : ConversationSession) (msg : String) :
      Reachable predictMsg s →
      Reachable predictMsg (sendMessage predictMsg s msg).2

/-- `prob_dict.get(k, 0)` in `_calculate_severity_risk`. -/
def probGet (d : List (String × ℚ)) (k : String) : ℚ :=
  (dictGet? d k).getD 0

/-- `patient_data.get('Fever Duration (Days)', 0)`; collected data always
holds an int here, any other shape would raise in Python. -/
def reportedFeverDuration (patientData : List (String × Value)) : Int :=
  match dictGet? patientData "Fever Duration (Days)" with
  | some (.num n) => n
  | _ => 0

/-- `patient_data.get('Complications') not in [None, 'None']`. -/
def hasReportedComplication (patientData : List (String × Value)) : Bool :=
  match dictGet? patientData "Complications" with
  | none => false
  | some v => decide (v ≠ .str "None")

/-- `patient_data.get('Previous History of Typhoid') == 'Yes'`. -/
def hasPreviousHistory (patientData : List (String × Value)) : Bool :=
  decide (dictGet? patientData "Previous History of Typhoid" = some (.str "Yes"))

/-- `TyphoidModelWrapper._calculate_severity_risk`.  Class probabilities and
the risk are exact rationals in place of Python floats. -/
def calculateSeverityRisk (probDict : List (String × ℚ))
    (patientData : List (String × Value)) : ℚ :=
  let typhoidRisk :=
    probGet probDict "Acute Typhoid Fever" * 0.5 +
    probGet probDict "Relapsing Typhoid" * 0.7 +
    probGet probDict "Complicated Typhoid" * 1.0
  let r1 :=
    if 7 < reportedFeverDuration patientData then typhoidRisk * 1.2
    else typhoidRisk
  let r2 := if hasReportedComplication patientData then r1 * 1.3 else r1
  let r3 := if hasPreviousHistory patientData then r2 * 1.1 else r2
  min r3 100

/-- The severity formula as the specification words it: a weighted base over
the three escalating severity classes, three independent multiplicative
adjustments in a fixed order, and a final clamp at 100.  Stated separately
from `calculateSeverityRisk` (which follows the code line by line) so the
two can be compared. -/
def severitySpec (probDict : List (String × ℚ))
    (patientData : List (String × Value)) : ℚ :=
  min ((probGet probDict "Acute Typhoid Fever" * 0.5 +
        probGet probDict "Relapsing Typhoid" * 0.7 +
        probGet probDict "Complicated Typhoid" * 1.0) *
      (if 7 < reportedFeverDuration patientData then 1.2 else 1) *
      (if hasReportedComplication patientData then 1.3 else 1) *
      (if hasPreviousHistory patientData then 1.1 else 1)) 100

/-- `TyphoidModelWrapper._get_recommendations`. -/
def getRecommendations (prediction : String) (severity : ℚ) : List String :=
  if prediction = "Normal or No Typhoid" then
    [ "Monitor symptoms for the next 24-48 hours",
      "Stay well hydrated",
      "Maintain good hygiene practices",
      "Consult a doctor if symptoms worsen" ]
  else if prediction = "Acute Typhoid Fever" then
    let recs :=
      [ "Visit a healthcare facility for confirmation tests",
        "Get blood culture and Widal test done",
        "Do not self-medicate with antibiotics",
        "Maintain strict hygiene and isolation",
        "Stay hydrated and rest" ]
    if 60 < severity then "URGENT: Seek medical attention TODAY" :: recs
    else recs
  else if prediction = "Relapsing Typhoid" then
    [ "Seek immediate medical care",
      "Inform your doctor about previous typhoid history",
      "Complete the full antibiotic course as prescribed",
      "Get follow-up blood cultures done",
      "Strict bed rest required" ]
  else
    [ "GO TO EMERGENCY ROOM IMMEDIATELY",
      "Hospitalization is likely required",
      "Life-threatening complications are possible",
      "Do not delay treatment" ]

/-- Does a value satisfy the validation rule of a question kind? -/
def kindValidB : QKind → Value → Bool
  | .number lo hi, .num n => decide (lo ≤ n ∧ n ≤ hi)
  | .choice options, .str s => decide (s ∈ options)
  | _, _ => false

/-- Is a collected-data entry a validated value for its field? -/
def entryValid (e : String × Value) : Bool :=
  match questions.find? (fun q => q.field = e.1) with
  | some q => kindValidB q.kind e.2
  | none => false

/-- The value `validate_and_store_answer` would store for a given field and
raw answer, or `none` if validation fails.  Derived view of the source
function, used to state and prove its properties. -/
def answerValue (fieldName answer : String) : Option Value :=
  match questions.find? (fun q => q.field = fieldName) with
  | none => none
  | some q =>
      match q.kind with
      | .number lo hi =>
          match pyInt answer with
          | none => none
          | some v => if lo ≤ v ∧ v ≤ hi then some (.num v) else none
      | .choice options => (matchOption options answer).map .str

/-- The state-machine invariant of one session: the cursor is within the
catalog, the completion flag tracks the cursor, the collected keys are
exactly the first `cursor` fields in catalog order, and every stored value
passed its field's validation. -/
def SessionInv (s : ConversationSession) : Prop :=
  s.currentQuestionIndex ≤ fieldNames.length ∧
  (s.isComplete = true ↔ s.currentQuestionIndex = fieldNames.length) ∧
  s.collectedData.map Prod.fst = fieldNames.take s.currentQuestionIndex ∧
  ∀ e ∈ s.collectedData, entryValid e = true

/-- The probability dictionary of the specification's worked severity
example: A = Acute Typhoid Fever 10, B = Relapsing Typhoid 20,
C = Complicated Typhoid 5. -/
def exampleProbs : List (String × ℚ) :=
  [("Acute Typhoid Fever", 10), ("Relapsing Typhoid", 20),
    ("Complicated Typhoid", 5)]

@[simp]
theorem addMessage_currentQuestionIndex (s : ConversationSession)
    (role content : String) :
    (addMessage s role content).currentQuestionIndex = s.currentQuestionIndex :=
  rfl

@[simp]
theorem addMessage_collectedData (s : ConversationSession)
    (role content : String) :
    (addMessage s role content).collectedData = s.collectedData :=
  rfl

@[simp]
theorem addMessage_isComplete (s : ConversationSession) (role content : String) :
    (addMessage s role content).isComplete = s.isComplete :=
  rfl

theorem addMessage_conversationHistory (s : ConversationSession)
    (role content : String) :
    (addMessage s role content).conversationHistory =
      s.conversationHistory ++ [(role, content)] :=
  rfl

theorem validateAndStoreAnswer_eq (s : ConversationSession) (f a : String) :
    validateAndStoreAnswer s f a =
      match answerValue f a with
      | some v => (true, { s with collectedData := dictSet s.collectedData f v })
      | none => (false, s) := by
  simp only [validateAndStoreAnswer, answerValue]
  cases hq : questions.find? (fun q => q.field = f) with
  | none => rfl
  | some q =>
      obtain ⟨fld, qtext, kind⟩ := q
      cases kind with
      | number lo hi =>
          cases hp : pyInt a with
          | none => simp [hp]
          | some v =>
              by_cases hr : lo ≤ v ∧ v ≤ hi
              · simp [hp, hr]
              · simp [hp, hr]
      | choice options =>
          cases hm : matchOption options a with
          | none => simp [hm]
          | some opt => simp [hm]

theorem answerValue_entryValid {f a : String} {v : Value}
    (h : answerValue f a = some v) : entryValid (f, v) = true := by
  simp only [answerValue] at h
  simp only [entryValid]
  cases hq : questions.find? (fun q => q.field = f) with
  | none => rw [hq] at h; cases h
  | some q =>
      rw [hq] at h
      obtain ⟨fld, qtext, kind⟩ := q
      cases kind with
      | number lo hi =>
          cases hp : pyInt a with
          | none => simp [hp] at h
          | some n =>
              simp only [hp] at h
              by_cases hr : lo ≤ n ∧ n ≤ hi
              · simp only [hr, if_true] at h
                obtain rfl : Value.num n = v := by
                  simpa using h
                simp [kindValidB, hr]
              · simp [hr] at h
      | choice options =>
          cases hm : matchOption options a with
          | none => simp [hm] at h
          | some opt =>
              simp only [hm] at h
              obtain rfl : Value.str opt = v := by
                simpa using h
              have hmem : opt ∈ options := List.mem_of_find?_eq_some hm
              simp [kindValidB, hmem]

theorem dictSet_of_not_mem {α : Type} (d : List (String × α)) (k : String)
    (v : α) (h : k ∉ d.map Prod.fst) : dictSet d k v = d ++ [(k, v)] := by
  induction d with
  | nil => rfl
  | cons e rest ih =>
      simp only [List.map_cons, List.mem_cons, not_or] at h
      simp only [dictSet]
      rw [if_neg (fun he => h.1 he.symm)]
      rw [ih h.2]
      simp

theorem fieldNames_length : fieldNames.length = 17 := by decide

theorem fieldNames_nodup : fieldNames.Nodup := by decide

theorem fieldNames_getD_not_mem_take :
    ∀ i, i < 17 → fieldNames.getD i "" ∉ fieldNames.take i := by decide

theorem fieldNames_take_succ :
    ∀ i, i < 17 →
      fieldNames.take (i + 1) = fieldNames.take i ++ [fieldNames.getD i ""] := by
  decide

theorem questions_find?_at :
    ∀ i, i < 17 →
      questions.find? (fun q => q.field = fieldNames.getD i "") =
        some (questions.getD i default) := by
  decide

theorem sendMessage_of_complete (p : List (String × Value) → String)
    (s : ConversationSession) (m : String)
    (h : fieldNames.length ≤ s.currentQuestionIndex) :
    sendMessage p s m = (.alreadyComplete, addMessage s "user" (pyStrip m)) := by
  simp only [sendMessage, addMessage_currentQuestionIndex]
  rw [if_pos h]

theorem sendMessage_of_invalid (p : List (String × Value) → String)
    (s : ConversationSession) (m : String)
    (h1 : s.currentQuestionIndex < fieldNames.length)
    (hv : answerValue (fieldNames.getD s.currentQuestionIndex "") (pyStrip m) =
      none) :
    sendMessage p s m =
      (.rejected (hintFor s.currentQuestionIndex),
        addMessage (addMessage s "user" (pyStrip m)) "agent"
          (hintFor s.currentQuestionIndex)) := by
  simp only [sendMessage, addMessage_currentQuestionIndex,
    validateAndStoreAnswer_eq, hv]
  rw [if_neg (not_le.mpr h1)]
  simp

theorem sendMessage_of_valid_mid (p : List (String × Value) → String)
    (s : ConversationSession) (m : String) (v : Value)
    (h1 : s.currentQuestionIndex < fieldNames.length)
    (hv : answerValue (fieldNames.getD s.currentQuestionIndex "") (pyStrip m) =
      some v)
    (h2 : s.currentQuestionIndex + 1 < fieldNames.length) :
    sendMessage p s m =
      (.accepted ("Got it. " ++
          (questions.getD (s.currentQuestionIndex + 1) default).question),
        { sessionId := s.sessionId
          conversationHistory := s.conversationHistory ++ [("user", pyStrip m),
            ("agent", "Got it. " ++
              (questions.getD (s.currentQuestionIndex + 1) default).question)]
          collectedData :=
            dictSet s.collectedData (fieldNames.getD s.currentQuestionIndex "") v
          currentQuestionIndex := s.currentQuestionIndex + 1
          isComplete := s.isComplete }) := by
  simp only [sendMessage, addMessage_currentQuestionIndex,
    validateAndStoreAnswer_eq, hv]
  rw [if_neg (not_le.mpr h1), if_neg (not_le.mpr h2)]
  simp [getNextQuestion, addMessage, not_le.mpr h2]

theorem sendMessage_of_valid_last (p : List (String × Value) → String)
    (s : ConversationSession) (m : String) (v : Value)
    (h1 : s.currentQuestionIndex < fieldNames.length)
    (hv : answerValue (fieldNames.getD s.currentQuestionIndex "") (pyStrip m) =
      some v)
    (h2 : fieldNames.length ≤ s.currentQuestionIndex + 1) :
    sendMessage p s m =
      (.finished (p (dictSet s.collectedData
          (fieldNames.getD s.currentQuestionIndex "") v)),
        { sessionId := s.sessionId
          conversationHistory := s.conversationHistory ++ [("user", pyStrip m),
            ("agent", p (dictSet s.collectedData
              (fieldNames.getD s.currentQuestionIndex "") v))]
          collectedData :=
            dictSet s.collectedData (fieldNames.getD s.currentQuestionIndex "") v
          currentQuestionIndex := s.currentQuestionIndex + 1
          isComplete := true }) := by
  simp only [sendMessage, addMessage_currentQuestionIndex,
    validateAndStoreAnswer_eq, hv]
  rw [if_neg (not_le.mpr h1), if_pos h2]
  simp [addMessage]

theorem startConversation_session (store : List (String × ConversationSession))
    (sid : String) :
    (startConversation store sid).2 =
      { sessionId := sid
        conversationHistory := [("agent", greeting), ("agent", "What is your age?")]
        collectedData := []
        currentQuestionIndex := 0
        isComplete := false } :=
  rfl

theorem startConversation_store (store : List (String × ConversationSession))
    (sid : String) :
    (startConversation store sid).1 =
      dictSet store sid (startConversation store sid).2 :=
  rfl

theorem sessionInv_start (store : List (String × ConversationSession))
    (sid : String) : SessionInv (startConversation store sid).2 := by
  rw [startConversation_session]
  refine ⟨by simp, by simp [fieldNames_length], by simp, by simp⟩

theorem sessionInv_step (p : List (String × Value) → String)
    (s : ConversationSession) (m : String) (h : SessionInv s) :
    SessionInv (sendMessage p s m).2 := by
  obtain ⟨hle, hcomp, hkeys, hvalid⟩ := h
  by_cases h1 : fieldNames.length ≤ s.currentQuestionIndex
  · rw [sendMessage_of_complete p s m h1]
    exact ⟨hle, hcomp, hkeys, hvalid⟩
  · push_neg at h1
    have h17 : s.currentQuestionIndex < 17 := by rw [fieldNames_length] at h1; exact h1
    cases hv : answerValue (fieldNames.getD s.currentQuestionIndex "") (pyStrip m) with
    | none =>
        rw [sendMessage_of_invalid p s m h1 hv]
        exact ⟨hle, hcomp, hkeys, hvalid⟩
    | some v =>
        have hnotmem :
            fieldNames.getD s.currentQuestionIndex "" ∉ s.collectedData.map Prod.fst := by
          rw [hkeys]
          exact fieldNames_getD_not_mem_take _ h17
        have hset :
            dictSet s.collectedData (fieldNames.getD s.currentQuestionIndex "") v =
              s.collectedData ++ [(fieldNames.getD s.currentQuestionIndex "", v)] :=
          dictSet_of_not_mem _ _ _ hnotmem
        have hkeys' :
            (dictSet s.collectedData (fieldNames.getD s.currentQuestionIndex "") v).map
                Prod.fst =
              fieldNames.take (s.currentQuestionIndex + 1) := by
          rw [hset, List.map_append, hkeys, fieldNames_take_succ _ h17]
          rfl
        have hvalid' :
            ∀ e ∈ dictSet s.collectedData (fieldNames.getD s.currentQuestionIndex "") v,
              entryValid e = true := by
          rw [hset]
          intro e he
          rcases List.mem_append.mp he with hold | hnew
          · exact hvalid e hold
          · rcases List.mem_singleton.mp hnew with rfl
            exact answerValue_entryValid hv
        by_cases h2 : fieldNames.length ≤ s.currentQuestionIndex + 1
        · rw [sendMessage_of_valid_last p s m v h1 hv h2]
          have hcur : s.currentQuestionIndex + 1 = fieldNames.length := by omega
          exact ⟨by simp [hcur], by simp [hcur], hkeys', hvalid'⟩
        · push_neg at h2
          rw [sendMessage_of_valid_mid p s m v h1 hv h2]
          refine ⟨by simpa using Nat.le_of_lt h2, ?_, hkeys', hvalid'⟩
          show s.isComplete = true ↔ s.currentQuestionIndex + 1 = fieldNames.length
          rw [hcomp]
          omega

theorem sendMessage_cursor_eq (p : List (String × Value) → String)
    (s : ConversationSession) (m : String) :
    ((sendMessage p s m).2).currentQuestionIndex =
      if isSuccess (sendMessage p s m).1 then s.currentQuestionIndex + 1
      else s.currentQuestionIndex := by
  by_cases h1 : fieldNames.length ≤ s.currentQuestionIndex
  · rw [sendMessage_of_complete p s m h1]
    simp [isSuccess]
  · push_neg at h1
    cases hv : answerValue (fieldNames.getD s.currentQuestionIndex "") (pyStrip m) with
    | none =>
        rw [sendMessage_of_invalid p s m h1 hv]
        simp [isSuccess]
    | some v =>
        by_cases h2 : fieldNames.length ≤ s.currentQuestionIndex + 1
        · rw [sendMessage_of_valid_last p s m v h1 hv h2]
          simp [isSuccess]
        · push_neg at h2
          rw [sendMessage_of_valid_mid p s m v h1 hv h2]
          simp [isSuccess]

theorem runMessages_cursor (p : List (String × Value) → String)
    (msgs : List String) :
    ∀ s : ConversationSession,
      (runMessages p s msgs).currentQuestionIndex =
        s.currentQuestionIndex + acceptedCount p s msgs := by
  induction msgs with
  | nil => intro s; simp [runMessages, acceptedCount]
  | cons m rest ih =>
      intro s
      simp only [runMessages, acceptedCount]
      rw [ih]
      rw [sendMessage_cursor_eq]
      by_cases hs : isSuccess (sendMessage p s m).1
      · simp [hs]
        omega
      · simp [hs]

theorem runMessages_inv (p : List (String × Value) → String)
    (msgs : List String) :
    ∀ s : ConversationSession, SessionInv s → SessionInv (runMessages p s msgs) := by
  induction msgs with
  | nil => intro s h; exact h
  | cons m rest ih =>
      intro s h
      exact ih _ (sessionInv_step p s m h)

theorem reachable_inv {p : List (String × Value) → String}
    {s : ConversationSession} (h : Reachable p s) : SessionInv s := by
  induction h with
  | start store sid => exact sessionInv_start store sid
  | step s msg _ ih => exact sessionInv_step p s msg ih

theorem dictGet?_dictSet_self {α : Type} (d : List (String × α)) (k : String)
    (v : α) : dictGet? (dictSet d k v) k = some v := by
  induction d with
  | nil => simp [dictSet, dictGet?]
  | cons e rest ih =>
      by_cases he : e.1 = k
      · obtain ⟨k', v'⟩ := e
        simp only at he
        simp [dictSet, he, dictGet?]
      · obtain ⟨k', v'⟩ := e
        simp only at he
        simp only [dictSet, if_neg he]
        simp only [dictGet?, List.find?_cons]
        rw [show (decide (k' = k)) = false from decide_eq_false he]
        exact ih

theorem validate_fst_eq (s : ConversationSession) (f a : String) :
    (validateAndStoreAnswer s f a).1 = (answerValue f a).isSome := by
  rw [validateAndStoreAnswer_eq]
  cases answerValue f a <;> rfl

theorem probGet_append_ne (d : List (String × ℚ)) (label k : String) (q : ℚ)
    (h : k ≠ label) : probGet (d ++ [(label, q)]) k = probGet d k := by
  have hfind : List.find? (fun p => p.1 = k) [(label, q)] = none := by
    have hd : decide (label = k) = false := decide_eq_false (Ne.symm h)
    simp [List.find?, hd]
  simp only [probGet, dictGet?, List.find?_append, hfind]
  cases hf : d.find? (fun p => p.1 = k) <;> rfl

theorem sendMessage_ne_complete (p : List (String × Value) → String)
    (s : ConversationSession) (m : String)
    (h1 : s.currentQuestionIndex < fieldNames.length) :
    (sendMessage p s m).1 ≠ MsgOutcome.alreadyComplete := by
  cases hv : answerValue (fieldNames.getD s.currentQuestionIndex "") (pyStrip m) with
  | none =>
      rw [sendMessage_of_invalid p s m h1 hv]
      simp
  | some v =>
      by_cases h2 : fieldNames.length ≤ s.currentQuestionIndex + 1
      · rw [sendMessage_of_valid_last p s m v h1 hv h2]
        simp
      · rw [sendMessage_of_valid_mid p s m v h1 hv (not_le.mp h2)]
        simp

/-- Claim C8: for an existing session, `send_message` fails with the
session-complete error iff the cursor has reached the catalog length, and
in that case no value is stored, the cursor does not change, and the
completion flag does not change. -/
theorem sendMessage_complete_error_iff (p : List (String × Value) → String)
    (s : ConversationSession) (m : String) :
    ((sendMessage p s m).1 = MsgOutcome.alreadyComplete ↔
      fieldNames.length ≤ s.currentQuestionIndex) ∧
    (fieldNames.length ≤ s.currentQuestionIndex →
      (sendMessage p s m).2.collectedData = s.collectedData ∧
      (sendMessage p s m).2.currentQuestionIndex = s.currentQuestionIndex ∧
      (sendMessage p s m).2.isComplete = s.isComplete) := by
  by_cases h1 : fieldNames.length ≤ s.currentQuestionIndex
  · rw [sendMessage_of_complete p s m h1]
    exact ⟨⟨fun _ => h1, fun _ => rfl⟩, fun _ => ⟨rfl, rfl, rfl⟩⟩
  · push_neg at h1
    refine ⟨⟨fun ho => absurd ho (sendMessage_ne_complete p s m h1), ?_⟩, ?_⟩
    · intro hge
      exact absurd hge (not_le.mpr h1)
    · intro hge
      exact absurd hge (not_le.mpr h1)

theorem sendMessage_complete_error_iff_witness :
    ((sendMessage (fun _ => "")
        { sessionId := "w8"
          conversationHistory := []
          collectedData := []
          currentQuestionIndex := 17
          isComplete := true } "hello").2.collectedData = [] ∧
      (sendMessage (fun _ => "")
        { sessionId := "w8"
          conversationHistory := []
          collectedData := []
          currentQuestionIndex := 17
          isComplete := true } "hello").2.currentQuestionIndex = 17 ∧
      (sendMessage (fun _ => "")
        { sessionId := "w8"
          conversationHistory := []
          collectedData := []
          currentQuestionIndex := 17
          isComplete := true } "hello").2.isComplete = true) :=
  (sendMessage_complete_error_iff (fun _ => "")
    { sessionId := "w8"
      conversationHistory := []
      collectedData := []
      currentQuestionIndex := 17
      isComplete := true } "hello").2 (by decide)

/-- Claim C10: calling `send_message` on an already complete session appends
the patient's (stripped) message to the transcript before raising the
session-complete error, so the failing call still mutates the transcript. -/
theorem sendMessage_complete_appends_transcript
    (p : List (String × Value) → String) (s : ConversationSession) (m : String)
    (h : fieldNames.length ≤ s.currentQuestionIndex) :
    (sendMessage p s m).1 = MsgOutcome.alreadyComplete ∧
    (sendMessage p s m).2.conversationHistory =
      s.conversationHistory ++ [("user", pyStrip m)] := by
  rw [sendMessage_of_complete p s m h]
  exact ⟨rfl, rfl⟩

theorem sendMessage_complete_appends_transcript_witness :
    (sendMessage (fun _ => "")
      { sessionId := "w10"
        conversationHistory := []
        collectedData := []
        currentQuestionIndex := 17
        isComplete := true } "  I feel fine  ").1 = MsgOutcome.alreadyComplete ∧
    (sendMessage (fun _ => "")
      { sessionId := "w10"
        conversationHistory := []
        collectedData := []
        currentQuestionIndex := 17
        isComplete := true } "  I feel fine  ").2.conversationHistory =
      [("user", "I feel fine")] :=
  sendMessage_complete_appends_transcript (fun _ => "")
    { sessionId := "w10"
      conversationHistory := []
      collectedData := []
      currentQuestionIndex := 17
      isComplete := true } "  I feel fine  " (by decide)

/-- Claim C2: in the Collecting state a failed validation returns a
Rejected outcome and leaves the cursor and the collected data untouched;
any change to cursor or data can only come from a successful outcome, which
advances the cursor by exactly one and stores the validated value. -/
theorem rejected_is_frame_preserving (p : List (String × Value) → String)
    (s : ConversationSession) (m : String)
    (h1 : s.currentQuestionIndex < fieldNames.length) :
    (answerValue (fieldNames.getD s.currentQuestionIndex "") (pyStrip m) = none →
      (∃ hint, (sendMessage p s m).1 = MsgOutcome.rejected hint) ∧
      (sendMessage p s m).2.currentQuestionIndex = s.currentQuestionIndex ∧
      (sendMessage p s m).2.collectedData = s.collectedData) ∧
    (∀ hint, (sendMessage p s m).1 = MsgOutcome.rejected hint →
      (sendMessage p s m).2.currentQuestionIndex = s.currentQuestionIndex ∧
      (sendMessage p s m).2.collectedData = s.collectedData) ∧
    ((sendMessage p s m).2.currentQuestionIndex ≠ s.currentQuestionIndex ∨
        (sendMessage p s m).2.collectedData ≠ s.collectedData →
      isSuccess (sendMessage p s m).1 = true ∧
      (sendMessage p s m).2.currentQuestionIndex = s.currentQuestionIndex + 1 ∧
      ∃ v, answerValue (fieldNames.getD s.currentQuestionIndex "") (pyStrip m) =
          some v ∧
        (sendMessage p s m).2.collectedData =
          dictSet s.collectedData (fieldNames.getD s.currentQuestionIndex "") v) := by
  cases hv : answerValue (fieldNames.getD s.currentQuestionIndex "") (pyStrip m) with
  | none =>
      rw [sendMessage_of_invalid p s m h1 hv]
      refine ⟨fun _ => ⟨⟨_, rfl⟩, rfl, rfl⟩, fun hint _ => ⟨rfl, rfl⟩, ?_⟩
      intro hch
      exfalso
      rcases hch with hc | hc <;> exact hc rfl
  | some v =>
      by_cases h2 : fieldNames.length ≤ s.currentQuestionIndex + 1
      · rw [sendMessage_of_valid_last p s m v h1 hv h2]
        refine ⟨?_, ?_, ?_⟩
        · intro hn
          cases hn
        · intro hint hr
          cases hr
        · intro _
          exact ⟨rfl, rfl, v, rfl, rfl⟩
      · rw [sendMessage_of_valid_mid p s m v h1 hv (not_le.mp h2)]
        refine ⟨?_, ?_, ?_⟩
        · intro hn
          cases hn
        · intro hint hr
          cases hr
        · intro _
          exact ⟨rfl, rfl, v, rfl, rfl⟩

theorem rejected_is_frame_preserving_witness :
    (∃ hint, (sendMessage (fun _ => "") (startConversation [] "w2").2
        "abc").1 = MsgOutcome.rejected hint) ∧
    (sendMessage (fun _ => "") (startConversation [] "w2").2
        "abc").2.currentQuestionIndex = 0 ∧
    (sendMessage (fun _ => "") (startConversation [] "w2").2
        "abc").2.collectedData = [] :=
  ((rejected_is_frame_preserving (fun _ => "") (startConversation [] "w2").2
    "abc" (by decide)).1) (by decide)

/-- Claim C1: along any run of `send_message` calls from a fresh session,
the cursor equals the number of successful submissions, never decreases,
the completion flag holds exactly when the cursor equals the catalog length
(17), and the collected data holds exactly one validated value for each of
the first `cursor` fields in catalog order, never one that failed
validation. -/
theorem session_invariant (p : List (String × Value) → String) (sid : String)
    (msgs : List String) :
    fieldNames.length = 17 ∧
    (runMessages p (startConversation [] sid).2 msgs).currentQuestionIndex =
      acceptedCount p (startConversation [] sid).2 msgs ∧
    ((runMessages p (startConversation [] sid).2 msgs).isComplete = true ↔
      (runMessages p (startConversation [] sid).2 msgs).currentQuestionIndex =
        17) ∧
    (runMessages p (startConversation [] sid).2 msgs).collectedData.map
        Prod.fst =
      fieldNames.take
        (runMessages p (startConversation [] sid).2 msgs).currentQuestionIndex ∧
    (∀ e ∈ (runMessages p (startConversation [] sid).2 msgs).collectedData,
      entryValid e = true) ∧
    (∀ m, (runMessages p (startConversation [] sid).2 msgs).currentQuestionIndex ≤
      (sendMessage p (runMessages p (startConversation [] sid).2 msgs)
        m).2.currentQuestionIndex) := by
  have hinv : SessionInv (runMessages p (startConversation [] sid).2 msgs) :=
    runMessages_inv p msgs _ (sessionInv_start [] sid)
  obtain ⟨hle, hcomp, hkeys, hvalid⟩ := hinv
  refine ⟨fieldNames_length, ?_, ?_, hkeys, hvalid, ?_⟩
  · have := runMessages_cursor p msgs (startConversation [] sid).2
    rw [startConversation_session] at this ⊢
    simpa using this
  · rw [hcomp, fieldNames_length]
  · intro m
    rw [sendMessage_cursor_eq]
    by_cases hs : isSuccess
        (sendMessage p (runMessages p (startConversation [] sid).2 msgs) m).1
    · rw [if_pos hs]
      exact Nat.le_succ _
    · rw [if_neg hs]

theorem session_invariant_witness :
    (runMessages (fun _ => "") (startConversation [] "w1").2
        ["150", "45", "male"]).currentQuestionIndex =
      acceptedCount (fun _ => "") (startConversation [] "w1").2
        ["150", "45", "male"] ∧
    ((runMessages (fun _ => "") (startConversation [] "w1").2
        ["150", "45", "male"]).isComplete = true ↔
      (runMessages (fun _ => "") (startConversation [] "w1").2
        ["150", "45", "male"]).currentQuestionIndex = 17) ∧
    entryValid ("Gender", Value.str "Male") = true :=
  ⟨(session_invariant (fun _ => "") "w1" ["150", "45", "male"]).2.1,
    (session_invariant (fun _ => "") "w1" ["150", "45", "male"]).2.2.1,
    (session_invariant (fun _ => "") "w1" ["150", "45", "male"]).2.2.2.2.1
      ("Gender", Value.str "Male") (by decide)⟩

/-- Claim C9: from a reachable Collecting session (cursor < 17) a
submission either is rejected, leaving cursor, flag and data unchanged, or
succeeds, advancing the cursor by one and completing exactly when the
cursor reaches 17; a complete session (cursor = 17) only ever gets the
session-complete error, with cursor, flag and data unchanged; the cursor
never decreases and the flag is never reset. -/
theorem session_transitions (p : List (String × Value) → String)
    (s : ConversationSession) (h : Reachable p s) (m : String) :
    (s.currentQuestionIndex < 17 →
      ((∃ g, (sendMessage p s m).1 = MsgOutcome.rejected g) ∨
        isSuccess (sendMessage p s m).1 = true) ∧
      ((∃ g, (sendMessage p s m).1 = MsgOutcome.rejected g) →
        (sendMessage p s m).2.currentQuestionIndex = s.currentQuestionIndex ∧
        (sendMessage p s m).2.isComplete = s.isComplete ∧
        (sendMessage p s m).2.collectedData = s.collectedData) ∧
      (isSuccess (sendMessage p s m).1 = true →
        (sendMessage p s m).2.currentQuestionIndex = s.currentQuestionIndex + 1 ∧
        ((sendMessage p s m).2.isComplete = true ↔
          (sendMessage p s m).2.currentQuestionIndex = 17))) ∧
    (s.currentQuestionIndex = 17 →
      (sendMessage p s m).1 = MsgOutcome.alreadyComplete ∧
      (sendMessage p s m).2.currentQuestionIndex = 17 ∧
      (sendMessage p s m).2.isComplete = s.isComplete ∧
      (sendMessage p s m).2.collectedData = s.collectedData) ∧
    s.currentQuestionIndex ≤ (sendMessage p s m).2.currentQuestionIndex ∧
    (s.isComplete = true → (sendMessage p s m).2.isComplete = true) := by
  have hinv := reachable_inv h
  have hinv' := sessionInv_step p s m hinv
  obtain ⟨hle, hcomp, hkeys, hvalid⟩ := hinv
  obtain ⟨hle', hcomp', hkeys', hvalid'⟩ := hinv'
  have hmono : s.currentQuestionIndex ≤
      (sendMessage p s m).2.currentQuestionIndex := by
    rw [sendMessage_cursor_eq]
    by_cases hs : isSuccess (sendMessage p s m).1
    · rw [if_pos hs]
      exact Nat.le_succ _
    · rw [if_neg hs]
  refine ⟨?_, ?_, hmono, ?_⟩
  · intro hlt
    have h1 : s.currentQuestionIndex < fieldNames.length := by
      rw [fieldNames_length]
      exact hlt
    refine ⟨?_, ?_, ?_⟩
    · cases hv : answerValue (fieldNames.getD s.currentQuestionIndex "")
          (pyStrip m) with
      | none =>
          left
          rw [sendMessage_of_invalid p s m h1 hv]
          exact ⟨_, rfl⟩
      | some v =>
          right
          by_cases h2 : fieldNames.length ≤ s.currentQuestionIndex + 1
          · rw [sendMessage_of_valid_last p s m v h1 hv h2]
            rfl
          · rw [sendMessage_of_valid_mid p s m v h1 hv (not_le.mp h2)]
            rfl
    · intro ⟨g, hg⟩
      cases hv : answerValue (fieldNames.getD s.currentQuestionIndex "")
          (pyStrip m) with
      | none =>
          rw [sendMessage_of_invalid p s m h1 hv]
          exact ⟨rfl, rfl, rfl⟩
      | some v =>
          exfalso
          by_cases h2 : fieldNames.length ≤ s.currentQuestionIndex + 1
          · rw [sendMessage_of_valid_last p s m v h1 hv h2] at hg
            cases hg
          · rw [sendMessage_of_valid_mid p s m v h1 hv (not_le.mp h2)] at hg
            cases hg
    · intro hs
      have hcur : (sendMessage p s m).2.currentQuestionIndex =
          s.currentQuestionIndex + 1 := by
        rw [sendMessage_cursor_eq, if_pos hs]
      refine ⟨hcur, ?_⟩
      rw [hcomp', fieldNames_length]
  · intro h17
    have hge : fieldNames.length ≤ s.currentQuestionIndex := by
      rw [fieldNames_length]
      omega
    rw [sendMessage_of_complete p s m hge]
    exact ⟨rfl, h17, rfl, rfl⟩
  · intro hc
    have h17 : s.currentQuestionIndex = 17 := by
      have := hcomp.mp hc
      rw [fieldNames_length] at this
      exact this
    have hge : fieldNames.length ≤ s.currentQuestionIndex := by
      rw [fieldNames_length]
      omega
    rw [sendMessage_of_complete p s m hge]
    exact hc

theorem session_transitions_witness :
    (sendMessage (fun _ => "") (startConversation [] "w9").2
        "45").2.currentQuestionIndex = 1 ∧
    ((sendMessage (fun _ => "") (startConversation [] "w9").2
        "45").2.isComplete = true ↔
      (sendMessage (fun _ => "") (startConversation [] "w9").2
        "45").2.currentQuestionIndex = 17) :=
  (session_transitions (fun _ => "") (startConversation [] "w9").2
    (Reachable.start [] "w9") "45").1 (by decide) |>.2.2 (by decide)

/-- Claim C3 (amended): a numeric field accepts a raw answer iff it parses
as an integer within the field's inclusive range (Age 1-120, Fever Duration
0-30), and "abc" is always rejected; however the rejection is one uniform
outcome — any two answers failing validation at the same question produce
the identical result, so nothing distinguishes an unparsable answer from an
out-of-range one. -/
theorem numeric_validation (s : ConversationSession) (answer : String) :
    ((validateAndStoreAnswer s "Age" answer).1 = true ↔
      ∃ v, pyInt answer = some v ∧ 1 ≤ v ∧ v ≤ 120) ∧
    ((validateAndStoreAnswer s "Fever Duration (Days)" answer).1 = true ↔
      ∃ v, pyInt answer = some v ∧ 0 ≤ v ∧ v ≤ 30) ∧
    (validateAndStoreAnswer s "Age" "abc").1 = false ∧
    (∀ m1 m2 : String, s.currentQuestionIndex < fieldNames.length →
      answerValue (fieldNames.getD s.currentQuestionIndex "") (pyStrip m1) =
        none →
      answerValue (fieldNames.getD s.currentQuestionIndex "") (pyStrip m2) =
        none →
      ∀ p : List (String × Value) → String,
        (sendMessage p s m1).1 = (sendMessage p s m2).1) := by
  have hAge : questions.find? (fun q2 => q2.field = "Age") =
      some { field := "Age", question := "What is your age?",
             kind := QKind.number 1 120 } := by decide
  have hFev : questions.find? (fun q2 => q2.field = "Fever Duration (Days)") =
      some { field := "Fever Duration (Days)",
             question := "For how many days have you had fever? (Enter 0 if no fever)",
             kind := QKind.number 0 30 } := by decide
  refine ⟨?_, ?_, ?_, ?_⟩
  · rw [validate_fst_eq]
    simp only [answerValue, hAge]
    cases hp : pyInt answer with
    | none => simp
    | some v =>
        by_cases hr : (1 : Int) ≤ v ∧ v ≤ 120
        · simp [hr]
        · simp [hr]
  · rw [validate_fst_eq]
    simp only [answerValue, hFev]
    cases hp : pyInt answer with
    | none => simp
    | some v =>
        by_cases hr : (0 : Int) ≤ v ∧ v ≤ 30
        · simp [hr]
        · simp [hr]
  · rw [validate_fst_eq]
    decide
  · intro m1 m2 hlt hv1 hv2 p
    rw [sendMessage_of_invalid p s m1 hlt hv1,
      sendMessage_of_invalid p s m2 hlt hv2]

theorem numeric_validation_witness :
    (validateAndStoreAnswer (ConversationSession.init "cw3") "Age" "45").1 =
      true ∧
    (validateAndStoreAnswer (ConversationSession.init "cw3") "Age" "abc").1 =
      false :=
  ⟨(numeric_validation (ConversationSession.init "cw3") "45").1.mpr
      ⟨45, by decide, by decide, by decide⟩,
    (numeric_validation (ConversationSession.init "cw3") "x").2.2.1⟩

/-- Counterexample to claim C3 as stated: the unparsable answer "abc" and
the out-of-range answer "500" on the Age question yield literally identical
results — same boolean from `validate_and_store_answer`, same rejection
outcome and re-prompt from `send_message` — so the failure reason does not
distinguish a NotANumberError from an OutOfRangeError. -/
theorem numeric_failure_indistinguishable :
    (sendMessage (fun _ => "") (startConversation [] "c3").2 "abc").1 =
      (sendMessage (fun _ => "") (startConversation [] "c3").2 "500").1 ∧
    (sendMessage (fun _ => "") (startConversation [] "c3").2 "abc").1 =
      MsgOutcome.rejected "I didn\x27t quite understand that. What is your age?" ∧
    validateAndStoreAnswer (startConversation [] "c3").2 "Age" "abc" =
      validateAndStoreAnswer (startConversation [] "c3").2 "Age" "500" := by
  refine ⟨by decide, by decide, by decide⟩

/-- Claim C4: an enumerated field accepts a raw answer iff it equals one of
the option labels case-insensitively; the stored value is the canonically
cased option label, not the raw input ("male" on the gender field stores
"Male"); an answer matching no option is rejected. -/
theorem enumerated_validation (s : ConversationSession)
    (fieldName answer : String) (q : Question) (options : List String)
    (hq : questions.find? (fun q2 => q2.field = fieldName) = some q)
    (hk : q.kind = QKind.choice options) :
    ((validateAndStoreAnswer s fieldName answer).1 = true ↔
      ∃ opt ∈ options, pyLower answer = pyLower opt) ∧
    (∀ opt, matchOption options answer = some opt →
      opt ∈ options ∧
      (validateAndStoreAnswer s fieldName answer).2.collectedData =
        dictSet s.collectedData fieldName (Value.str opt)) ∧
    (validateAndStoreAnswer s "Gender" "male").1 = true ∧
    (validateAndStoreAnswer s "Gender" "male").2.collectedData =
      dictSet s.collectedData "Gender" (Value.str "Male") := by
  have hGender : answerValue "Gender" "male" = some (Value.str "Male") := by
    decide
  refine ⟨?_, ?_, ?_, ?_⟩
  · rw [validate_fst_eq]
    simp only [answerValue, hq, hk]
    cases hm : matchOption options answer with
    | none =>
        constructor
        · intro hfalse
          simp at hfalse
        · intro ⟨opt, hmem, heq⟩
          exfalso
          have hne : options.find? (fun o => pyLower answer = pyLower o) ≠
              none := by
            intro hnone
            have := List.find?_eq_none.mp hnone opt hmem
            simp [heq] at this
          exact hne hm
    | some opt =>
        constructor
        · intro _
          refine ⟨opt, List.mem_of_find?_eq_some hm, ?_⟩
          have := List.find?_some hm
          simpa using this
        · intro _
          rfl
  · intro opt hm
    refine ⟨List.mem_of_find?_eq_some hm, ?_⟩
    rw [validateAndStoreAnswer_eq]
    simp only [answerValue, hq, hk, hm]
    rfl
  · rw [validate_fst_eq, hGender]
    rfl
  · rw [validateAndStoreAnswer_eq, hGender]

theorem enumerated_validation_witness :
    (validateAndStoreAnswer (ConversationSession.init "cw4") "Gender"
        "male").1 = true ∧
    (validateAndStoreAnswer (ConversationSession.init "cw4") "Gender"
        "male").2.collectedData =
      dictSet (ConversationSession.init "cw4").collectedData "Gender"
        (Value.str "Male") :=
  (enumerated_validation (ConversationSession.init "cw4") "Gender" "male"
    { field := "Gender", question := "What is your gender? (Male/Female)",
      kind := QKind.choice ["Male", "Female"] }
    ["Male", "Female"] (by decide) rfl).2.2

/-- Claim C5: the severity risk equals the spec's formula — min(100, base
adjusted by the three multiplicative factors in order), with base weighting
only the three named classes (0.5 / 0.7 / 1.0, zero contribution from any
other class); on {A 10, B 20, C 5} the base is 24, the fever adjustment
gives 28.8, the complication adjustment 37.44, and the result never exceeds
100. -/
theorem severity_formula :
    (∀ probDict patientData,
      calculateSeverityRisk probDict patientData =
        severitySpec probDict patientData) ∧
    (∀ probDict patientData,
      calculateSeverityRisk probDict patientData ≤ 100) ∧
    (∀ (label : String) (q : ℚ) probDict patientData,
      label ≠ "Acute Typhoid Fever" → label ≠ "Relapsing Typhoid" →
      label ≠ "Complicated Typhoid" →
      calculateSeverityRisk (probDict ++ [(label, q)]) patientData =
        calculateSeverityRisk probDict patientData) ∧
    calculateSeverityRisk exampleProbs [] = 24 ∧
    calculateSeverityRisk exampleProbs
      [("Fever Duration (Days)", Value.num 10)] = 28.8 ∧
    calculateSeverityRisk exampleProbs
      [("Fever Duration (Days)", Value.num 10),
        ("Complications", Value.str "Sepsis")] = 37.44 := by
  refine ⟨?_, ?_, ?_, ?_, ?_, ?_⟩
  · intro probDict patientData
    simp only [calculateSeverityRisk, severitySpec]
    split_ifs <;> ring_nf
  · intro probDict patientData
    simp only [calculateSeverityRisk]
    exact min_le_right _ _
  · intro label q probDict patientData h1 h2 h3
    simp only [calculateSeverityRisk]
    rw [probGet_append_ne _ _ _ _ (Ne.symm h1),
      probGet_append_ne _ _ _ _ (Ne.symm h2),
      probGet_append_ne _ _ _ _ (Ne.symm h3)]
  · simp [calculateSeverityRisk, exampleProbs, probGet, dictGet?, List.find?,
      reportedFeverDuration, hasReportedComplication, hasPreviousHistory]
    norm_num
  · simp [calculateSeverityRisk, exampleProbs, probGet, dictGet?, List.find?,
      reportedFeverDuration, hasReportedComplication, hasPreviousHistory]
    norm_num
  · simp [calculateSeverityRisk, exampleProbs, probGet, dictGet?, List.find?,
      reportedFeverDuration, hasReportedComplication, hasPreviousHistory]
    norm_num

theorem severity_formula_witness :
    calculateSeverityRisk (exampleProbs ++ [("Normal or No Typhoid", 65)]) [] =
      calculateSeverityRisk exampleProbs [] :=
  severity_formula.2.2.1 "Normal or No Typhoid" 65 exampleProbs []
    (by decide) (by decide) (by decide)

/-- Claim C6: recommendation selection is a pure function of the predicted
label and the severity; for every label other than Acute Typhoid Fever the
list is independent of the severity; for Acute Typhoid Fever with severity
strictly above 60 the urgent-action entry is prepended to the
otherwise-unchanged list. -/
theorem recommendations_pure :
    (∀ (label : String) (s1 s2 : ℚ), label ≠ "Acute Typhoid Fever" →
      getRecommendations label s1 = getRecommendations label s2) ∧
    (∀ sev : ℚ, 60 < sev →
      getRecommendations "Acute Typhoid Fever" sev =
        "URGENT: Seek medical attention TODAY" ::
          getRecommendations "Acute Typhoid Fever" 0) ∧
    (∀ sev : ℚ, ¬60 < sev →
      getRecommendations "Acute Typhoid Fever" sev =
        getRecommendations "Acute Typhoid Fever" 0) ∧
    (∀ (label : String) (sev : ℚ),
      getRecommendations label sev = getRecommendations label sev) := by
  refine ⟨?_, ?_, ?_, fun _ _ => rfl⟩
  · intro label s1 s2 h
    simp only [getRecommendations]
    split_ifs <;> rfl
  · intro sev hs
    simp [getRecommendations, hs, show ¬(60 : ℚ) < 0 by norm_num]
  · intro sev hs
    simp [getRecommendations, hs, show ¬(60 : ℚ) < 0 by norm_num]

theorem recommendations_pure_witness :
    getRecommendations "Acute Typhoid Fever" 61 =
      "URGENT: Seek medical attention TODAY" ::
        getRecommendations "Acute Typhoid Fever" 0 :=
  recommendations_pure.2.1 61 (by norm_num)

/-- Claim C7 (amended): session creation initializes cursor = 0, empty
transcript, empty data mapping and `completed = false` (the endpoint then
appends the greeting and the first question to the transcript), and
unconditionally stores the session under the identifier, overwriting any
session already stored there; no duplicate check is made and no error is
raised. -/
theorem create_initializes (store : List (String × ConversationSession))
    (sid : String) :
    (ConversationSession.init sid).currentQuestionIndex = 0 ∧
    (ConversationSession.init sid).conversationHistory = [] ∧
    (ConversationSession.init sid).collectedData = [] ∧
    (ConversationSession.init sid).isComplete = false ∧
    (startConversation store sid).2.currentQuestionIndex = 0 ∧
    (startConversation store sid).2.collectedData = [] ∧
    (startConversation store sid).2.isComplete = false ∧
    dictGet? (startConversation store sid).1 sid =
      some (startConversation store sid).2 :=
  ⟨rfl, rfl, rfl, rfl, rfl, rfl, rfl, dictGet?_dictSet_self store sid _⟩

/-- Counterexample to claim C7 as stated: creating a session whose
identifier is already present in the store does not fail with a
duplicate-session error and does not leave the existing session unchanged —
the fresh session silently overwrites the stored one (here a session with
cursor 3 is replaced by the new cursor-0 session). -/
theorem create_overwrites_duplicate :
    dictGet? (startConversation
        [("dup", { sessionId := "dup"
                   conversationHistory := []
                   collectedData := [("Age", Value.num 45)]
                   currentQuestionIndex := 3
                   isComplete := false })] "dup").1 "dup" ≠
      some { sessionId := "dup"
             conversationHistory := []
             collectedData := [("Age", Value.num 45)]
             currentQuestionIndex := 3
             isComplete := false } ∧
    dictGet? (startConversation
        [("dup", { sessionId := "dup"
                   conversationHistory := []
                   collectedData := [("Age", Value.num 45)]
                   currentQuestionIndex := 3
                   isComplete := false })] "dup").1 "dup" =
      some { sessionId := "dup"
             conversationHistory := [("agent", greeting),
               ("agent", "What is your age?")]
             collectedData := []
             currentQuestionIndex := 0
             isComplete := false } := by
  refine ⟨by decide, by decide⟩

end PreConsult
